import Mathlib

/-!
Verification of the agent turn-execution contract of
`atomic_agents/agents/base_agent.py`.

The agent orchestrates one conversational turn: optional user input is
appended to memory, a message sequence is assembled and sent to the
structured-completion client, and the response is appended to memory.

Embedding choices:
* Python objects holding a mutable `AgentMemory` reference are modelled with
  an explicit heap (`Heap`) of memory objects indexed by `Nat` references,
  so that aliasing versus structural copying (`AgentMemory.copy`) is
  observable: the agent stores references (`memory`, `initial_memory`) into
  the heap, and mutation through one reference must not affect the object
  behind the other.
* Each method that can act on the outside world additionally returns the
  ordered list of `AgentEvent`s it performed (memory appends, the
  completion-client call, assignment of `current_user_input`), so that
  strict ordering between the appends and the client call is statable.
* The completion client is a function value carried by the agent, as
  `self.client` is in Python; a failing client returns `Except.error`.
* Python `raise` is modelled with `Except.error`; a method that mutates
  `self` returns the new agent state, and raising before mutating returns
  the state unchanged.
-/

/-- A role-tagged chat message, the shape of the dicts stored in memory and
sent to the completion client. -/
structure ChatMessage where
  role : String
  content : String
deriving Repr, DecidableEq

/-- Escapes one character for a JSON string literal (quote and backslash;
the textual fields in the claims never need the control-character cases). -/
def jsonEscapeChar (c : Char) : String :=
  if c = '\\' then "\\\\"
  else if c = '\"' then "\\\""
  else String.singleton c

/-- Escapes a string for inclusion in a JSON string literal. -/
def jsonEscape (s : String) : String :=
  String.join (s.toList.map jsonEscapeChar)

/-- The user-input envelope `BaseAgentInputSchema`: one required textual
field `chat_message`. -/
structure BaseAgentInputSchema where
  chat_message : String
deriving Repr, DecidableEq

/-- The assistant-output envelope `BaseAgentOutputSchema`: one required
textual field `chat_message`. -/
structure BaseAgentOutputSchema where
  chat_message : String
deriving Repr, DecidableEq

/-- Modelled from the spec: the deterministic textual serialization
(pydantic `model_dump_json`, wrapped by `BaseAgentIO.__str__`, both outside
`src/`) of the input envelope. -/
def BaseAgentInputSchema.str (i : BaseAgentInputSchema) : String :=
  "\x7b\"chat_message\":\"" ++ jsonEscape i.chat_message ++ "\"\x7d"

/-- Modelled from the spec: the deterministic textual serialization of the
output envelope. -/
def BaseAgentOutputSchema.str (o : BaseAgentOutputSchema) : String :=
  "\x7b\"chat_message\":\"" ++ jsonEscape o.chat_message ++ "\"\x7d"

/-- A schema (a Python class object used as the `response_model` target):
either one of the two built-in envelope classes or a custom schema type
identified by name. -/
inductive Schema where
  | baseAgentInput : Schema
  | baseAgentOutput : Schema
  | custom : String → Schema
deriving Repr, DecidableEq

/-- The heap of `AgentMemory` objects. A reference is an index into `mems`;
two distinct references are distinct Python objects. -/
structure Heap where
  mems : List (List ChatMessage)
deriving Repr, DecidableEq

/-- Allocates a fresh `AgentMemory` object with history `v`, returning its
reference and the grown heap. -/
def Heap.alloc (hp : Heap) (v : List ChatMessage) : Nat × Heap :=
  (hp.mems.length, ⟨hp.mems ++ [v]⟩)

/-- Reads the history of the memory object behind reference `r`. -/
def Heap.get (hp : Heap) (r : Nat) : List ChatMessage :=
  hp.mems.getD r []

/-- Overwrites the history of the memory object behind reference `r`. -/
def Heap.set (hp : Heap) (r : Nat) (v : List ChatMessage) : Heap :=
  ⟨hp.mems.set r v⟩

/-- Modelled from the spec: `AgentMemory.add_message(role, content)`
(`atomic_agents.lib.components.agent_memory`, outside `src/`) appends one
role-tagged message to the memory object behind `r`. -/
def AgentMemory.add_message (hp : Heap) (r : Nat) (role content : String) : Heap :=
  hp.set r (hp.get r ++ [⟨role, content⟩])

/-- Modelled from the spec: `AgentMemory.get_history()` returns the ordered
history of the memory object behind `r`. -/
def AgentMemory.get_history (hp : Heap) (r : Nat) : List ChatMessage :=
  hp.get r

/-- Modelled from the spec: `AgentMemory.copy()` returns an independent
structural snapshot — a freshly allocated object with the same history. -/
def AgentMemory.copy (hp : Heap) (r : Nat) : Nat × Heap :=
  hp.alloc (hp.get r)

/-- A context provider contributing dynamic content to the system prompt
(`SystemPromptContextProviderBase`); its behaviour is irrelevant here, only
its identity. -/
structure ContextProvider where
  info : String
deriving Repr, DecidableEq

/-- Lookup in a Python dict represented as an insertion-ordered association
list with unique keys. -/
def dictGet {α : Type} (d : List (String × α)) (k : String) : Option α :=
  match d with
  | [] => none
  | (k2, v) :: rest => if k2 = k then some v else dictGet rest k

/-- Python `k in d` membership test. -/
def dictContains {α : Type} (d : List (String × α)) (k : String) : Bool :=
  (dictGet d k).isSome

/-- Python `d[k] = v`: overwrites in place when the key is present,
otherwise appends the new entry. -/
def dictInsert {α : Type} (d : List (String × α)) (k : String) (v : α) :
    List (String × α) :=
  match d with
  | [] => [(k, v)]
  | (k2, v2) :: rest =>
      if k2 = k then (k, v) :: rest else (k2, v2) :: dictInsert rest k v

/-- Python `del d[k]`: removes the entry with key `k`. -/
def dictErase {α : Type} (d : List (String × α)) (k : String) :
    List (String × α) :=
  d.filter (fun p => p.1 != k)

/-- Modelled from the spec: the `system_prompt_info` record owned by the
prompt generator, holding the named context-provider registry. -/
structure SystemPromptInfo where
  context_providers : List (String × ContextProvider)

/-- Modelled from the spec: the system-prompt generator
(`atomic_agents.lib.components.system_prompt_generator`, outside `src/`).
It owns the provider registry and renders the prompt from it; the rendering
function is abstract state of the collaborator. -/
structure SystemPromptGenerator where
  system_prompt_info : SystemPromptInfo
  render : List (String × ContextProvider) → String

/-- Modelled from the spec: `generate_prompt()` produces the prompt string
from the generator's current state, consulting the registered providers. -/
def SystemPromptGenerator.generate_prompt (g : SystemPromptGenerator) : String :=
  g.render g.system_prompt_info.context_providers

/-- Modelled from the spec: a fresh default generator (`SystemPromptGenerator()`)
with an empty provider registry. -/
def defaultSystemPromptGenerator : SystemPromptGenerator :=
  ⟨⟨[]⟩, fun _ => "This is a conversation with a helpful and friendly AI assistant."⟩

/-- The structured-completion client: takes the model identifier, the
assembled message sequence and the target schema, and returns a conforming
response or fails (`instructor` raising is `Except.error`). -/
def CompletionClient : Type :=
  String → List ChatMessage → Schema → Except String BaseAgentOutputSchema

/-- The configuration bundle `BaseAgentConfig`. Field defaults mirror the
pydantic defaults: `model` defaults to `"gpt-3.5-turbo"`, the collaborators
and schema overrides default to `None`. `memory` is a reference to an
existing `AgentMemory` object when provided. -/
structure BaseAgentConfig where
  client : CompletionClient
  model : String := "gpt-3.5-turbo"
  memory : Option Nat := none
  system_prompt_generator : Option SystemPromptGenerator := none
  input_schema : Option Schema := none
  output_schema : Option Schema := none

/-- The agent's instance state after `BaseAgent.__init__`: the fields
assigned by the constructor, with `memory` and `initial_memory` held as
references into the heap. -/
structure BaseAgent where
  input_schema : Schema
  output_schema : Schema
  client : CompletionClient
  model : String
  memory : Nat
  system_prompt_generator : SystemPromptGenerator
  initial_memory : Nat
  current_user_input : Option BaseAgentInputSchema

/-- One observable action performed during a method call, in program
order: assignment of `self.current_user_input`, a memory append, or the
completion-client call with its exact arguments. -/
inductive AgentEvent where
  | setCurrentInput : BaseAgentInputSchema → AgentEvent
  | memAppend : String → String → AgentEvent
  | clientCall : String → List ChatMessage → Schema → AgentEvent
deriving Repr, DecidableEq

/-- `BaseAgent.__init__(config)`: resolves schema overrides and collaborator
defaults (`x or default`; envelope classes and collaborator instances are
always truthy, so this is a `None` check), binds the memory (fresh empty
object when absent), captures `initial_memory = self.memory.copy()` as a
structural snapshot, and clears `current_user_input`. -/
def BaseAgent.init (config : BaseAgentConfig) (hp : Heap) : BaseAgent × Heap :=
  let memPair : Nat × Heap :=
    match config.memory with
    | some r => (r, hp)
    | none => hp.alloc []
  let initPair : Nat × Heap := AgentMemory.copy memPair.2 memPair.1
  ({ input_schema := config.input_schema.getD Schema.baseAgentInput,
     output_schema := config.output_schema.getD Schema.baseAgentOutput,
     client := config.client,
     model := config.model,
     memory := memPair.1,
     system_prompt_generator :=
       config.system_prompt_generator.getD defaultSystemPromptGenerator,
     initial_memory := initPair.1,
     current_user_input := none }, initPair.2)

/-- `BaseAgent.reset_memory()`: `self.memory = self.initial_memory.copy()` —
the active-memory reference is replaced by a fresh structural copy of the
snapshot. -/
def BaseAgent.reset_memory (st : BaseAgent) (hp : Heap) : BaseAgent × Heap :=
  let p : Nat × Heap := AgentMemory.copy hp st.initial_memory
  ({ st with memory := p.1 }, p.2)

/-- `BaseAgent.get_response(response_model=None)`: resolves the target
schema (`self.output_schema` when the argument is `None`), assembles one
system-role message from `generate_prompt()` followed by
`self.memory.get_history()`, and delegates to
`self.client.chat.completions.create(model=..., messages=..., response_model=...)`.
Returns the client's result unchanged; mutates nothing. -/
def BaseAgent.get_response (st : BaseAgent) (hp : Heap)
    (response_model : Option Schema) :
    Except String BaseAgentOutputSchema × BaseAgent × Heap × List AgentEvent :=
  let rm : Schema :=
    match response_model with
    | none => st.output_schema
    | some s => s
  let messages : List ChatMessage :=
    ⟨"system", st.system_prompt_generator.generate_prompt⟩ ::
      AgentMemory.get_history hp st.memory
  let response := st.client st.model messages rm
  (response, st, hp, [AgentEvent.clientCall st.model messages rm])

/-- `BaseAgent.run(user_input=None)`: when input is given (instances of the
envelope schemas are always truthy, so `if user_input:` is a presence
check), records it as `current_user_input` and appends the user-role
message; then calls `get_response(response_model=self.output_schema)`;
on success appends the assistant-role message and returns the response; a
client failure propagates and skips the assistant append. -/
def BaseAgent.run (st : BaseAgent) (hp : Heap)
    (user_input : Option BaseAgentInputSchema) :
    Except String BaseAgentOutputSchema × BaseAgent × Heap × List AgentEvent :=
  let step1 : BaseAgent × Heap × List AgentEvent :=
    match user_input with
    | some u =>
        ({ st with current_user_input := some u },
         AgentMemory.add_message hp st.memory "user" u.str,
         [AgentEvent.setCurrentInput u, AgentEvent.memAppend "user" u.str])
    | none => (st, hp, [])
  let gr := step1.1.get_response step1.2.1 (some step1.1.output_schema)
  match gr.1 with
  | Except.error e => (Except.error e, gr.2.1, gr.2.2.1, step1.2.2 ++ gr.2.2.2)
  | Except.ok response =>
      (Except.ok response, gr.2.1,
       AgentMemory.add_message gr.2.2.1 gr.2.1.memory "assistant" response.str,
       step1.2.2 ++ gr.2.2.2 ++ [AgentEvent.memAppend "assistant" response.str])

/-- The provider registry owned by the agent's prompt generator, as read and
written by the provider-management methods. -/
def BaseAgent.contextProviders (st : BaseAgent) : List (String × ContextProvider) :=
  st.system_prompt_generator.system_prompt_info.context_providers

/-- The message of the KeyError raised on a missing provider name. -/
def providerNotFoundMsg (provider_name : String) : String :=
  "Context provider \x27" ++ provider_name ++ "\x27 not found."

/-- Replaces the provider registry inside the agent's generator. -/
def BaseAgent.withProviders (st : BaseAgent)
    (d : List (String × ContextProvider)) : BaseAgent :=
  { st with system_prompt_generator :=
      { st.system_prompt_generator with system_prompt_info :=
          { context_providers := d } } }

/-- `BaseAgent.get_context_provider(provider_name)`: raises KeyError when
the name is absent from the registry, otherwise returns the registered
provider. Read-only. -/
def BaseAgent.get_context_provider (st : BaseAgent) (provider_name : String) :
    Except String ContextProvider :=
  match dictGet st.contextProviders provider_name with
  | none => Except.error (providerNotFoundMsg provider_name)
  | some p => Except.ok p

/-- `BaseAgent.register_context_provider(provider_name, provider)`: inserts
or overwrites the registry entry; never fails. -/
def BaseAgent.register_context_provider (st : BaseAgent)
    (provider_name : String) (provider : ContextProvider) : BaseAgent :=
  st.withProviders (dictInsert st.contextProviders provider_name provider)

/-- `BaseAgent.unregister_context_provider(provider_name)`: deletes the
entry when present, otherwise raises KeyError leaving the agent unchanged. -/
def BaseAgent.unregister_context_provider (st : BaseAgent)
    (provider_name : String) : Except String Unit × BaseAgent :=
  if dictContains st.contextProviders provider_name then
    (Except.ok (), st.withProviders (dictErase st.contextProviders provider_name))
  else
    (Except.error (providerNotFoundMsg provider_name), st)

/-- Folds a sequence of `add_message` mutations over the memory object
behind reference `r`: an arbitrary run of appends to active memory. -/
def applyAdds (hp : Heap) (r : Nat) (msgs : List ChatMessage) : Heap :=
  match msgs with
  | [] => hp
  | m :: rest => applyAdds (AgentMemory.add_message hp r m.role m.content) r rest

/-! ### Heap and dictionary lemmas -/

theorem Heap.get_set_ne (hp : Heap) (r r2 : Nat) (v : List ChatMessage)
    (h : r ≠ r2) : (hp.set r v).get r2 = hp.get r2 := by
  simp [Heap.get, Heap.set, List.getD, List.getElem?_set_ne h]

theorem Heap.get_set_self (hp : Heap) (r : Nat) (v : List ChatMessage)
    (h : r < hp.mems.length) : (hp.set r v).get r = v := by
  simp [Heap.get, Heap.set, List.getD, List.getElem?_set_self, h]

theorem Heap.length_set (hp : Heap) (r : Nat) (v : List ChatMessage) :
    (hp.set r v).mems.length = hp.mems.length := by
  simp [Heap.set]

theorem Heap.get_alloc_of_lt (hp : Heap) (v : List ChatMessage) (r : Nat)
    (h : r < hp.mems.length) : (hp.alloc v).2.get r = hp.get r := by
  simp [Heap.get, Heap.alloc, List.getD, List.getElem?_append_left h]

theorem Heap.get_alloc_fst (hp : Heap) (v : List ChatMessage) :
    (hp.alloc v).2.get (hp.alloc v).1 = v := by
  simp [Heap.get, Heap.alloc, List.getD]

theorem AgentMemory.get_add_message_self (hp : Heap) (r : Nat)
    (role content : String) (h : r < hp.mems.length) :
    (AgentMemory.add_message hp r role content).get r
      = hp.get r ++ [⟨role, content⟩] := by
  simp [AgentMemory.add_message, Heap.get_set_self hp r _ h]

theorem AgentMemory.length_add_message (hp : Heap) (r : Nat)
    (role content : String) :
    (AgentMemory.add_message hp r role content).mems.length = hp.mems.length := by
  simp [AgentMemory.add_message, Heap.length_set]

theorem applyAdds_get_ne (msgs : List ChatMessage) (hp : Heap) (r r2 : Nat)
    (h : r ≠ r2) : (applyAdds hp r msgs).get r2 = hp.get r2 := by
  induction msgs generalizing hp with
  | nil => rfl
  | cons m rest ih =>
      rw [applyAdds, ih, AgentMemory.add_message, Heap.get_set_ne hp r r2 _ h]

theorem applyAdds_length (msgs : List ChatMessage) (hp : Heap) (r : Nat) :
    (applyAdds hp r msgs).mems.length = hp.mems.length := by
  induction msgs generalizing hp with
  | nil => rfl
  | cons m rest ih => rw [applyAdds, ih, AgentMemory.length_add_message]

theorem dictGet_dictInsert_self {α : Type} (d : List (String × α))
    (k : String) (v : α) : dictGet (dictInsert d k v) k = some v := by
  induction d with
  | nil => simp [dictInsert, dictGet]
  | cons hd tl ih =>
      obtain ⟨k2, v2⟩ := hd
      by_cases h : k2 = k
      · simp [dictInsert, dictGet, h]
      · simp [dictInsert, dictGet, h, ih]

/-- Construction facts: the snapshot reference allocated by `__init__` is a
distinct, valid object whose history equals the active memory's history. -/
theorem init_memory_facts (config : BaseAgentConfig) (hp0 : Heap)
    (hvalid : ∀ r, config.memory = some r → r < hp0.mems.length) :
    (BaseAgent.init config hp0).1.memory ≠ (BaseAgent.init config hp0).1.initial_memory
    ∧ (BaseAgent.init config hp0).1.memory < (BaseAgent.init config hp0).2.mems.length
    ∧ (BaseAgent.init config hp0).1.initial_memory < (BaseAgent.init config hp0).2.mems.length
    ∧ (BaseAgent.init config hp0).2.get (BaseAgent.init config hp0).1.initial_memory
        = (BaseAgent.init config hp0).2.get (BaseAgent.init config hp0).1.memory := by
  cases hmem : config.memory with
  | none =>
      refine ⟨?_, ?_, ?_, ?_⟩
      · simp [BaseAgent.init, hmem, AgentMemory.copy, Heap.alloc]
      · simp [BaseAgent.init, hmem, AgentMemory.copy, Heap.alloc]
      · simp [BaseAgent.init, hmem, AgentMemory.copy, Heap.alloc]
      · simp [BaseAgent.init, hmem, AgentMemory.copy, Heap.alloc, Heap.get, List.getD]
        rw [List.getElem_append_right (by omega), List.getElem_append_right (by omega)]
        simp
  | some r =>
      have hr : r < hp0.mems.length := hvalid r hmem
      refine ⟨?_, ?_, ?_, ?_⟩
      · simp [BaseAgent.init, hmem, AgentMemory.copy, Heap.alloc]
        omega
      · simp [BaseAgent.init, hmem, AgentMemory.copy, Heap.alloc]
        omega
      · simp [BaseAgent.init, hmem, AgentMemory.copy, Heap.alloc]
      · simp only [BaseAgent.init, hmem, AgentMemory.copy]
        rw [Heap.get_alloc_fst, Heap.get_alloc_of_lt _ _ _ hr]

/-- C2: after construction, any sequence of appends to active memory leaves
the construction-time snapshot unaffected; `reset_memory` replaces active
memory with a structural copy of that snapshot, so the restored history is
the construction-time history; the snapshot reference and its content
survive the reset, and a repeated `reset_memory` restores the same baseline
history (idempotence). -/
theorem c2_snapshot_isolation_and_reset (config : BaseAgentConfig) (hp0 : Heap)
    (msgs : List ChatMessage)
    (hvalid : ∀ r, config.memory = some r → r < hp0.mems.length) :
    let st := (BaseAgent.init config hp0).1
    let hp := (BaseAgent.init config hp0).2
    let hp1 := applyAdds hp st.memory msgs
    let q := st.reset_memory hp1
    let q2 := q.1.reset_memory q.2
    hp1.get st.initial_memory = hp.get st.initial_memory
    ∧ q.2.get q.1.memory = hp.get st.memory
    ∧ q.1.initial_memory = st.initial_memory
    ∧ q.2.get q.1.initial_memory = hp.get st.initial_memory
    ∧ q2.2.get q2.1.memory = q.2.get q.1.memory := by
  obtain ⟨hne, hmlt, hilt, heq⟩ := init_memory_facts config hp0 hvalid
  simp only [BaseAgent.reset_memory, AgentMemory.copy]
  refine ⟨?_, ?_, trivial, ?_, ?_⟩
  · exact applyAdds_get_ne msgs _ _ _ hne
  · rw [Heap.get_alloc_fst, applyAdds_get_ne msgs _ _ _ hne]
    exact heq
  · rw [Heap.get_alloc_of_lt _ _ _ (by rw [applyAdds_length]; exact hilt)]
    exact applyAdds_get_ne msgs _ _ _ hne
  · rw [Heap.get_alloc_fst, Heap.get_alloc_fst]
    rw [Heap.get_alloc_of_lt _ _ _ (by rw [applyAdds_length]; exact hilt)]

/-! ### Concrete fixtures used by the witnesses -/

/-- A stub completion client that always returns the fixed response. -/
def wClient : CompletionClient := fun _ _ _ => Except.ok ⟨"pong"⟩

/-- A stub completion client that always fails. -/
def wFailClient : CompletionClient := fun _ _ _ => Except.error "boom"

/-- A concrete two-object heap: active memory behind reference 0, snapshot
behind reference 1. -/
def wHeap : Heap := ⟨[[], []]⟩

/-- A concrete agent over `wHeap` with the stub client and default
collaborators. -/
def wAgent : BaseAgent :=
  { input_schema := Schema.baseAgentInput,
    output_schema := Schema.baseAgentOutput,
    client := wClient,
    model := "gpt-3.5-turbo",
    memory := 0,
    system_prompt_generator := defaultSystemPromptGenerator,
    initial_memory := 1,
    current_user_input := none }

/-- The same concrete agent with the failing client. -/
def wFailAgent : BaseAgent := { wAgent with client := wFailClient }

/-- A concrete configuration giving only the required client field. -/
def wConfig : BaseAgentConfig := { client := wClient }

theorem c2_witness :
    (∀ r, wConfig.memory = some r → r < (Heap.mk []).mems.length)
    ∧ (((BaseAgent.init wConfig ⟨[]⟩).1.reset_memory
          (applyAdds (BaseAgent.init wConfig ⟨[]⟩).2
            (BaseAgent.init wConfig ⟨[]⟩).1.memory [⟨"user", "x"⟩])).2.get
        ((BaseAgent.init wConfig ⟨[]⟩).1.reset_memory
          (applyAdds (BaseAgent.init wConfig ⟨[]⟩).2
            (BaseAgent.init wConfig ⟨[]⟩).1.memory [⟨"user", "x"⟩])).1.memory
        = (BaseAgent.init wConfig ⟨[]⟩).2.get (BaseAgent.init wConfig ⟨[]⟩).1.memory) :=
  ⟨by intro r hr; simp [wConfig] at hr,
   (c2_snapshot_isolation_and_reset wConfig ⟨[]⟩ [⟨"user", "x"⟩]
      (by intro r hr; simp [wConfig] at hr)).2.1⟩

/-- C1: a `run` turn with input appends exactly one user-role message (the
input's serialization) and then exactly one assistant-role message (the
response's serialization) to active memory; the performed events are, in
order: the user append, the completion-client call (whose message list
already holds the user message but not the assistant message), the
assistant append. -/
theorem c1_run_input_turn (st : BaseAgent) (hp : Heap) (u : BaseAgentInputSchema)
    (resp : BaseAgentOutputSchema)
    (hmem : st.memory < hp.mems.length)
    (hclient : st.client st.model
        (⟨"system", st.system_prompt_generator.generate_prompt⟩ ::
          (AgentMemory.add_message hp st.memory "user" u.str).get st.memory)
        st.output_schema = Except.ok resp) :
    st.run hp (some u)
      = (Except.ok resp,
         { st with current_user_input := some u },
         AgentMemory.add_message (AgentMemory.add_message hp st.memory "user" u.str)
           st.memory "assistant" resp.str,
         [AgentEvent.setCurrentInput u,
          AgentEvent.memAppend "user" u.str,
          AgentEvent.clientCall st.model
            (⟨"system", st.system_prompt_generator.generate_prompt⟩ ::
              (AgentMemory.add_message hp st.memory "user" u.str).get st.memory)
            st.output_schema,
          AgentEvent.memAppend "assistant" resp.str])
    ∧ (AgentMemory.add_message (AgentMemory.add_message hp st.memory "user" u.str)
         st.memory "assistant" resp.str).get st.memory
        = hp.get st.memory ++ [⟨"user", u.str⟩, ⟨"assistant", resp.str⟩] := by
  constructor
  · simp [BaseAgent.run, BaseAgent.get_response, AgentMemory.get_history, hclient]
  · rw [AgentMemory.get_add_message_self _ _ _ _
        (by rw [AgentMemory.length_add_message]; exact hmem),
      AgentMemory.get_add_message_self _ _ _ _ hmem]
    simp

theorem c1_witness :
    wAgent.memory < wHeap.mems.length
    ∧ (AgentMemory.add_message
          (AgentMemory.add_message wHeap wAgent.memory "user"
            (BaseAgentInputSchema.str ⟨"ping"⟩))
          wAgent.memory "assistant" (BaseAgentOutputSchema.str ⟨"pong"⟩)).get wAgent.memory
        = wHeap.get wAgent.memory ++
          [⟨"user", BaseAgentInputSchema.str ⟨"ping"⟩⟩,
           ⟨"assistant", BaseAgentOutputSchema.str ⟨"pong"⟩⟩] :=
  ⟨by decide,
   (c1_run_input_turn wAgent wHeap ⟨"ping"⟩ ⟨"pong"⟩ (by decide) rfl).2⟩

/-- C5: a `run` turn with no input performs no user append and no
assignment of `current_user_input`: the only events are the client call and
one assistant append, active memory gains exactly the assistant-role
message, and the response is still obtained and returned. -/
theorem c5_run_no_input_turn (st : BaseAgent) (hp : Heap)
    (resp : BaseAgentOutputSchema)
    (hmem : st.memory < hp.mems.length)
    (hclient : st.client st.model
        (⟨"system", st.system_prompt_generator.generate_prompt⟩ :: hp.get st.memory)
        st.output_schema = Except.ok resp) :
    st.run hp none
      = (Except.ok resp, st,
         AgentMemory.add_message hp st.memory "assistant" resp.str,
         [AgentEvent.clientCall st.model
            (⟨"system", st.system_prompt_generator.generate_prompt⟩ :: hp.get st.memory)
            st.output_schema,
          AgentEvent.memAppend "assistant" resp.str])
    ∧ (AgentMemory.add_message hp st.memory "assistant" resp.str).get st.memory
        = hp.get st.memory ++ [⟨"assistant", resp.str⟩] := by
  constructor
  · simp [BaseAgent.run, BaseAgent.get_response, AgentMemory.get_history, hclient]
  · exact AgentMemory.get_add_message_self hp st.memory _ _ hmem

theorem c5_witness :
    wAgent.memory < wHeap.mems.length
    ∧ (AgentMemory.add_message wHeap wAgent.memory "assistant"
          (BaseAgentOutputSchema.str ⟨"pong"⟩)).get wAgent.memory
        = wHeap.get wAgent.memory ++
          [⟨"assistant", BaseAgentOutputSchema.str ⟨"pong"⟩⟩] :=
  ⟨by decide, (c5_run_no_input_turn wAgent wHeap ⟨"pong"⟩ (by decide) rfl).2⟩

/-- C3: `get_response` assembles exactly one system-role message holding
the prompt generator's current output, followed by the full ordered history
of active memory, and invokes the completion client with the agent's model
identifier, that message sequence, and the resolved target schema; nothing
else is performed and no state changes. -/
theorem c3_get_response_assembly (st : BaseAgent) (hp : Heap)
    (rm : Option Schema) :
    st.get_response hp rm
      = (st.client st.model
           (⟨"system", st.system_prompt_generator.generate_prompt⟩ ::
             AgentMemory.get_history hp st.memory)
           (rm.getD st.output_schema),
         st, hp,
         [AgentEvent.clientCall st.model
            (⟨"system", st.system_prompt_generator.generate_prompt⟩ ::
              AgentMemory.get_history hp st.memory)
            (rm.getD st.output_schema)]) := by
  cases rm <;> rfl

/-- C4: a completion-client failure inside `get_response` propagates
unchanged to the caller, and the agent state — in particular active memory,
the initial snapshot and the provider registry — and the heap of memory
objects are unchanged by the failed call. -/
theorem c4_get_response_error_propagates (st : BaseAgent) (hp : Heap)
    (rm : Option Schema) (e : String)
    (hclient : st.client st.model
        (⟨"system", st.system_prompt_generator.generate_prompt⟩ ::
          AgentMemory.get_history hp st.memory)
        (rm.getD st.output_schema) = Except.error e) :
    (st.get_response hp rm).1 = Except.error e
    ∧ (st.get_response hp rm).2.1 = st
    ∧ (st.get_response hp rm).2.2.1 = hp
    ∧ (st.get_response hp rm).2.2.1.get (st.get_response hp rm).2.1.memory
        = hp.get st.memory
    ∧ (st.get_response hp rm).2.2.1.get (st.get_response hp rm).2.1.initial_memory
        = hp.get st.initial_memory
    ∧ (st.get_response hp rm).2.1.contextProviders = st.contextProviders := by
  cases rm with
  | none => exact ⟨hclient, rfl, rfl, rfl, rfl, rfl⟩
  | some s => exact ⟨hclient, rfl, rfl, rfl, rfl, rfl⟩

theorem c4_witness :
    (wFailAgent.client wFailAgent.model
        (⟨"system", wFailAgent.system_prompt_generator.generate_prompt⟩ ::
          AgentMemory.get_history wHeap wFailAgent.memory)
        ((none : Option Schema).getD wFailAgent.output_schema)
      = Except.error "boom")
    ∧ (wFailAgent.get_response wHeap none).1 = Except.error "boom"
    ∧ (wFailAgent.get_response wHeap none).2.1 = wFailAgent :=
  ⟨rfl,
   (c4_get_response_error_propagates wFailAgent wHeap none "boom" rfl).1,
   (c4_get_response_error_propagates wFailAgent wHeap none "boom" rfl).2.1⟩

/-- C6: an explicit non-null `response_model` argument is passed to the
completion client as the target schema regardless of the agent's configured
output schema; when the argument is null the configured output schema is
used instead. -/
theorem c6_response_model_override (st : BaseAgent) (hp : Heap) (s : Schema) :
    ((st.get_response hp (some s)).2.2.2
        = [AgentEvent.clientCall st.model
             (⟨"system", st.system_prompt_generator.generate_prompt⟩ ::
               AgentMemory.get_history hp st.memory) s]
      ∧ (st.get_response hp (some s)).1
          = st.client st.model
              (⟨"system", st.system_prompt_generator.generate_prompt⟩ ::
                AgentMemory.get_history hp st.memory) s)
    ∧ ((st.get_response hp none).2.2.2
        = [AgentEvent.clientCall st.model
             (⟨"system", st.system_prompt_generator.generate_prompt⟩ ::
               AgentMemory.get_history hp st.memory) st.output_schema]
      ∧ (st.get_response hp none).1
          = st.client st.model
              (⟨"system", st.system_prompt_generator.generate_prompt⟩ ::
                AgentMemory.get_history hp st.memory) st.output_schema) :=
  ⟨⟨rfl, rfl⟩, ⟨rfl, rfl⟩⟩

/-- C7: `register_context_provider` is a total operation — it succeeds for
every name and provider, overwriting any previous entry under the same
name — and a subsequent `get_context_provider` with that name returns the
newly registered provider. -/
theorem c7_register_overwrite_lookup (st : BaseAgent) (n : String)
    (p : ContextProvider) :
    (st.register_context_provider n p).get_context_provider n = Except.ok p := by
  simp [BaseAgent.get_context_provider, BaseAgent.register_context_provider,
    BaseAgent.contextProviders, BaseAgent.withProviders, dictGet_dictInsert_self]

/-- C8: for a name absent from the registry, both `get_context_provider`
and `unregister_context_provider` fail with the KeyError message naming it
and the agent (hence the registry) is unchanged; for a present name both
operations succeed. -/
theorem c8_lookup_failure (st : BaseAgent) (n : String) :
    (dictGet st.contextProviders n = none →
        st.get_context_provider n = Except.error (providerNotFoundMsg n)
      ∧ st.unregister_context_provider n
          = (Except.error (providerNotFoundMsg n), st))
    ∧ (∀ p, dictGet st.contextProviders n = some p →
        st.get_context_provider n = Except.ok p
      ∧ (st.unregister_context_provider n).1 = Except.ok ()) := by
  constructor
  · intro h
    exact ⟨by simp [BaseAgent.get_context_provider, h],
      by simp [BaseAgent.unregister_context_provider, dictContains, h]⟩
  · intro p h
    exact ⟨by simp [BaseAgent.get_context_provider, h],
      by simp [BaseAgent.unregister_context_provider, dictContains, h]⟩

theorem c8_witness :
    (wAgent.get_context_provider "missing"
        = Except.error (providerNotFoundMsg "missing")
      ∧ wAgent.unregister_context_provider "missing"
          = (Except.error (providerNotFoundMsg "missing"), wAgent))
    ∧ ((wAgent.register_context_provider "search" ⟨"results"⟩).get_context_provider
          "search" = Except.ok ⟨"results"⟩
      ∧ ((wAgent.register_context_provider "search"
            ⟨"results"⟩).unregister_context_provider "search").1 = Except.ok ()) :=
  ⟨(c8_lookup_failure wAgent "missing").1 rfl,
   (c8_lookup_failure (wAgent.register_context_provider "search" ⟨"results"⟩)
      "search").2 ⟨"results"⟩ rfl⟩

/-- C9: a configuration constructed without an explicit model identifier
takes the default `"gpt-3.5-turbo"`, and an agent built from it passes
`"gpt-3.5-turbo"` as the model of the completion-client call made by
`get_response`, and of every client call performed during any `run` turn. -/
theorem c9_default_model (c : CompletionClient) (hp0 hp : Heap)
    (rm : Option Schema) (u : Option BaseAgentInputSchema) :
    ({ client := c } : BaseAgentConfig).model = "gpt-3.5-turbo"
    ∧ (BaseAgent.init { client := c } hp0).1.model = "gpt-3.5-turbo"
    ∧ ((BaseAgent.init { client := c } hp0).1.get_response hp rm).2.2.2
        = [AgentEvent.clientCall "gpt-3.5-turbo"
             (⟨"system",
                SystemPromptGenerator.generate_prompt defaultSystemPromptGenerator⟩ ::
               AgentMemory.get_history hp (BaseAgent.init { client := c } hp0).1.memory)
             (rm.getD Schema.baseAgentOutput)]
    ∧ (((BaseAgent.init { client := c } hp0).1.run hp u).2.2.2).all
        (fun ev => match ev with
          | AgentEvent.clientCall m _ _ => m == "gpt-3.5-turbo"
          | _ => true) = true := by
  refine ⟨rfl, rfl, ?_, ?_⟩
  · cases rm <;> rfl
  · cases u with
    | none =>
        simp only [BaseAgent.run, BaseAgent.get_response]
        split <;> simp [BaseAgent.init]
    | some v =>
        simp only [BaseAgent.run, BaseAgent.get_response]
        split <;> simp [BaseAgent.init]

/-- C10: `current_user_input` is null after construction; `run` with input
assigns it to that input as its first action, before any memory append, and
the post-state holds that input; `run` with null input leaves the field
unchanged, so after a no-input turn it still holds the input of the most
recent turn that had one. -/
theorem c10_current_user_input (config : BaseAgentConfig) (hp0 : Heap)
    (st : BaseAgent) (hp : Heap) (u : BaseAgentInputSchema) :
    (BaseAgent.init config hp0).1.current_user_input = none
    ∧ (st.run hp (some u)).2.1.current_user_input = some u
    ∧ ((st.run hp (some u)).2.2.2).head? = some (AgentEvent.setCurrentInput u)
    ∧ (st.run hp none).2.1.current_user_input = st.current_user_input := by
  refine ⟨?_, ?_, ?_, ?_⟩
  · cases h : config.memory <;> simp [BaseAgent.init, h]
  · simp only [BaseAgent.run, BaseAgent.get_response]
    split <;> rfl
  · simp only [BaseAgent.run, BaseAgent.get_response]
    split <;> rfl
  · simp only [BaseAgent.run, BaseAgent.get_response]
    split <;> rfl
